import Mathlib

/-!
Shallow embedding of the margin-calculator front-end
(`src/app/page.tsx`, and its near-duplicate `src/unnamed/part_000`).

The component `Home` keeps nine `useState` cells; we collect them in a
`SessionState` record.  The three `useEffect` bodies and `handleSubmit`
become pure state transformers.  JavaScript numbers are modelled as exact
rationals (`ℚ`); `Math.round` is round-half-toward-positive-infinity,
i.e. `⌊x + 1/2⌋`.  Network interaction is split into a synchronous phase
(what the handler does before awaiting) and a resolution phase applied to
the transport's result, so that in-flight states are explicit.
-/

namespace FrontendMargin

/-- Order side, the `side` state cell: `"long" | "short"`. -/
inductive Side where
  | long : Side
  | short : Side
deriving DecidableEq, Repr

/-- `interface Asset` of `src/app/page.tsx` (lines 5-10). -/
structure Asset where
  symbol : String
  mark_price : ℚ
  contract_value : ℚ
  allowed_leverage : List ℚ
deriving DecidableEq, Repr

/-- The parsed JSON body of a `/margin/validate` response.  The TypeScript
annotation `ValidationResponse` (lines 12-16) is a compile-time cast only:
at runtime any parsed object is accepted, so every field is optional here,
and unknown extra fields are carried along untouched. -/
structure WireResponse where
  status : Option String
  message : Option String
  margin_required : Option ℚ
  extra : List (String × String)
deriving DecidableEq, Repr

/-- The nine `useState` cells of `Home` (lines 19-27). -/
structure SessionState where
  assets : List Asset
  selectedAsset : Option Asset
  orderSize : ℚ
  side : Side
  leverage : ℚ
  calculatedMargin : ℚ
  validationResult : Option WireResponse
  error : Option String
  loading : Bool
deriving DecidableEq, Repr

/-- The initial values passed to `useState` (lines 19-27). -/
def initialState : SessionState :=
  { assets := []
    selectedAsset := none
    orderSize := 0
    side := Side.long
    leverage := 0
    calculatedMargin := 0
    validationResult := none
    error := none
    loading := true }

/-- JavaScript `Math.round`: round half toward positive infinity,
`⌊x + 1/2⌋` on exact rationals. -/
def jsRound (x : ℚ) : ℤ := ⌊x + 1 / 2⌋

/-- `Math.round(x * 100) / 100` (line 69): round to 2 decimal places. -/
def round2 (x : ℚ) : ℚ := (jsRound (x * 100) : ℚ) / 100

/-- The leverage-correction effect (lines 57-61): when an asset is
selected and the current leverage is not among its allowed multiples,
fall back to `allowed_leverage[0]`.  (`headD 0` only differs from the
JavaScript indexing on an empty list, where `[0]` is `undefined`; the
catalog contract guarantees non-emptiness.) -/
def fixLeverage (s : SessionState) : SessionState :=
  match s.selectedAsset with
  | some a =>
      if s.leverage ∈ a.allowed_leverage then s
      else { s with leverage := a.allowed_leverage.headD 0 }
  | none => s

/-- The margin-calculation effect (lines 64-73): with an asset selected
and positive leverage, `(mark_price * orderSize * contract_value) /
leverage` rounded to 2 decimals; otherwise `0`. -/
def computeMargin (s : SessionState) : SessionState :=
  match s.selectedAsset with
  | some a =>
      if 0 < s.leverage then
        { s with calculatedMargin :=
            round2 (a.mark_price * s.orderSize * a.contract_value / s.leverage) }
      else { s with calculatedMargin := 0 }
  | none => { s with calculatedMargin := 0 }

/-- One settled React render: the leverage effect fires first and is
idempotent, then the margin effect recomputes from the final leverage. -/
def settle (s : SessionState) : SessionState := computeMargin (fixLeverage s)

/-- The parsed JSON body of a `GET /config/assets` response;
`data.assets` may be absent (`none`) or present with any list. -/
structure CatalogResponse where
  assets : Option (List Asset)
deriving DecidableEq, Repr

/-- Outcome of the catalog fetch as the promise chain sees it: `success`
when the response was 2xx and its body parsed as JSON, `failure` when the
fetch rejected, the status was non-2xx (the explicit `throw` on
`!res.ok`, line 36) or `res.json()` failed. -/
inductive CatalogResult where
  | success : CatalogResponse → CatalogResult
  | failure : CatalogResult
deriving DecidableEq, Repr

/-- The message set by the catalog `.catch` handler (line 51). -/
def catalogErrorMessage : String :=
  "Could not load asset configuration. Is the backend running?"

/-- The catalog-load effect (lines 33-54).  On success with a non-empty
`data.assets` it stores the list, selects the first asset and seeds
leverage with that asset's first allowed multiple; with a missing or
empty list it only clears `loading` (no error is set).  On failure it
stores the error message.  In all cases `loading` becomes `false`. -/
def loadCatalog (s : SessionState) : CatalogResult → SessionState
  | CatalogResult.success data =>
      match data.assets with
      | some (a :: rest) =>
          { s with assets := a :: rest
                   selectedAsset := some a
                   leverage := a.allowed_leverage.headD 0
                   loading := false }
      | some [] => { s with loading := false }
      | none => { s with loading := false }
  | CatalogResult.failure =>
      { s with error := some catalogErrorMessage, loading := false }

/-- The JSON body sent by `handleSubmit` to `POST /margin/validate`
(lines 86-92). -/
structure ValidateRequest where
  asset : String
  order_size : ℚ
  side : Side
  leverage : ℚ
  margin_client : ℚ
deriving DecidableEq, Repr

/-- The synchronous phase of `handleSubmit` (lines 75-93): with no asset
selected it returns early and issues no request; otherwise it clears
`validationResult` and issues exactly one request whose payload is
snapshotted from the current state.  `none` = no request issued; `some`
= the in-flight state paired with the request sent. -/
def submitStart (s : SessionState) : Option (SessionState × ValidateRequest) :=
  match s.selectedAsset with
  | none => none
  | some a =>
      some ({ s with validationResult := none },
            { asset := a.symbol
              order_size := s.orderSize
              side := s.side
              leverage := s.leverage
              margin_client := s.calculatedMargin })

/-- Outcome of the validate fetch: `success` when `response.json()`
parsed (the status code is never checked), `failure` when the fetch
rejected or parsing threw. -/
inductive SubmitResult where
  | success : WireResponse → SubmitResult
  | failure : SubmitResult
deriving DecidableEq, Repr

/-- The outcome synthesized by the `catch` branch (lines 99-103). -/
def networkErrorOutcome : WireResponse :=
  { status := some "error"
    message := some "Network error connecting to backend"
    margin_required := some 0
    extra := [] }

/-- The asynchronous tail of `handleSubmit` (lines 95-104): a parsed
response is stored verbatim (no field validation); on a thrown error the
locally synthesized outcome is stored. -/
def submitResolve (s : SessionState) : SubmitResult → SessionState
  | SubmitResult.success data => { s with validationResult := some data }
  | SubmitResult.failure => { s with validationResult := some networkErrorOutcome }

/-- The `disabled` attribute of the submit button (line 244):
`orderSize <= 0`. -/
def submitDisabled (s : SessionState) : Bool := s.orderSize ≤ 0

/-- An asset honouring the catalog collaborator's contract:
`allowed_leverage` is non-empty. -/
def goodAsset (a : Asset) : Prop := a.allowed_leverage ≠ []

/-- One interaction step of the session, from a settled state to the
next settled state.  Catalog responses are constrained to the external
collaborator's contract (every delivered asset has a non-empty
`allowed_leverage`); asset selection is constrained to the rendered
buttons, i.e. to members of the loaded catalog.  Leverage, size and side
edits are unconstrained. -/
inductive Step : SessionState → SessionState → Prop where
  | load (s : SessionState) (r : CatalogResult)
      (hgood : ∀ data, r = CatalogResult.success data →
        ∀ l, data.assets = some l → ∀ a ∈ l, goodAsset a) :
      Step s (settle (loadCatalog s r))
  | select (s : SessionState) (a : Asset) (ha : a ∈ s.assets) :
      Step s (settle { s with selectedAsset := some a })
  | setSide (s : SessionState) (sd : Side) :
      Step s (settle { s with side := sd })
  | setSize (s : SessionState) (x : ℚ) :
      Step s (settle { s with orderSize := x })
  | setLeverage (s : SessionState) (l : ℚ) :
      Step s (settle { s with leverage := l })
  | submitS (s t : SessionState) (req : ValidateRequest)
      (h : submitStart s = some (t, req)) :
      Step s (settle t)
  | submitR (s : SessionState) (r : SubmitResult) :
      Step s (settle (submitResolve s r))

/-- States the session can reach from the initial render. -/
inductive Reachable : SessionState → Prop where
  | init : Reachable initialState
  | step {s t : SessionState} : Reachable s → Step s t → Reachable t

/-- The load-error screen (lines 115-122) is rendered exactly when the
`error` cell is set. -/
def showsLoadError (s : SessionState) : Bool := s.error.isSome

/-! ### Concrete fixtures -/

/-- A catalog asset matching the worked example of the spec:
mark_price 50000, contract_value 0.001, allowed leverage 5x, 10x, 20x. -/
def assetBTC : Asset :=
  { symbol := "BTC"
    mark_price := 50000
    contract_value := 1 / 1000
    allowed_leverage := [5, 10, 20] }

/-- A settled ready state: BTC selected, size 10, leverage 20x,
margin 25 as computed by the margin effect. -/
def readyState : SessionState :=
  { assets := [assetBTC]
    selectedAsset := some assetBTC
    orderSize := 10
    side := Side.long
    leverage := 20
    calculatedMargin := 25
    validationResult := none
    error := none
    loading := false }

/-- The ready state after a resolved submission stored an outcome. -/
def resolvedState : SessionState :=
  { readyState with validationResult := some networkErrorOutcome }

/-- A settled state with an asset selected but order size still 0. -/
def sizeZeroState : SessionState :=
  { assets := [assetBTC]
    selectedAsset := some assetBTC
    orderSize := 0
    side := Side.long
    leverage := 5
    calculatedMargin := 0
    validationResult := none
    error := none
    loading := false }

/-- The state right after a successful one-asset catalog load settles. -/
def loadedState : SessionState :=
  settle (loadCatalog initialState
    (CatalogResult.success { assets := some [assetBTC] }))

/-! ### Frame lemmas for the two effects -/

theorem fixLeverage_selectedAsset (s : SessionState) :
    (fixLeverage s).selectedAsset = s.selectedAsset := by
  unfold fixLeverage
  split
  · split <;> rfl
  · rfl

theorem fixLeverage_assets (s : SessionState) :
    (fixLeverage s).assets = s.assets := by
  unfold fixLeverage
  split
  · split <;> rfl
  · rfl

theorem computeMargin_selectedAsset (s : SessionState) :
    (computeMargin s).selectedAsset = s.selectedAsset := by
  unfold computeMargin
  split
  · split <;> rfl
  · rfl

theorem computeMargin_leverage (s : SessionState) :
    (computeMargin s).leverage = s.leverage := by
  unfold computeMargin
  split
  · split <;> rfl
  · rfl

theorem computeMargin_assets (s : SessionState) :
    (computeMargin s).assets = s.assets := by
  unfold computeMargin
  split
  · split <;> rfl
  · rfl

theorem settle_selectedAsset (s : SessionState) :
    (settle s).selectedAsset = s.selectedAsset := by
  unfold settle
  rw [computeMargin_selectedAsset, fixLeverage_selectedAsset]

theorem settle_assets (s : SessionState) :
    (settle s).assets = s.assets := by
  unfold settle
  rw [computeMargin_assets, fixLeverage_assets]

theorem headD_mem {l : List ℚ} (h : l ≠ []) : l.headD 0 ∈ l := by
  cases l with
  | nil => exact absurd rfl h
  | cons x xs => exact List.mem_cons_self x xs

theorem fixLeverage_leverage_mem (s : SessionState) (a : Asset)
    (hsel : s.selectedAsset = some a) (hne : goodAsset a) :
    (fixLeverage s).leverage ∈ a.allowed_leverage := by
  unfold fixLeverage
  rw [hsel]
  dsimp only
  split
  · assumption
  · exact headD_mem hne

theorem settle_leverage_mem (s : SessionState) (a : Asset)
    (hsel : s.selectedAsset = some a) (hne : goodAsset a) :
    (settle s).leverage ∈ a.allowed_leverage := by
  unfold settle
  rw [computeMargin_leverage]
  exact fixLeverage_leverage_mem s a hsel hne


/-! ### Equation lemmas for the load and submit paths -/

theorem loadCatalog_success_cons (s : SessionState) (data : CatalogResponse)
    (a : Asset) (rest : List Asset) (h : data.assets = some (a :: rest)) :
    loadCatalog s (CatalogResult.success data)
      = { s with assets := a :: rest
                 selectedAsset := some a
                 leverage := a.allowed_leverage.headD 0
                 loading := false } := by
  simp only [loadCatalog]
  rw [h]

theorem loadCatalog_success_empty (s : SessionState) (data : CatalogResponse)
    (h : data.assets = some []) :
    loadCatalog s (CatalogResult.success data) = { s with loading := false } := by
  simp only [loadCatalog]
  rw [h]

theorem loadCatalog_success_missing (s : SessionState) (data : CatalogResponse)
    (h : data.assets = none) :
    loadCatalog s (CatalogResult.success data) = { s with loading := false } := by
  simp only [loadCatalog]
  rw [h]

theorem loadCatalog_failure_eq (s : SessionState) :
    loadCatalog s CatalogResult.failure
      = { s with error := some catalogErrorMessage, loading := false } := rfl

theorem submitStart_of_none {s : SessionState} (h : s.selectedAsset = none) :
    submitStart s = none := by
  unfold submitStart
  rw [h]

theorem submitStart_of_some {s : SessionState} {a : Asset}
    (h : s.selectedAsset = some a) :
    submitStart s
      = some ({ s with validationResult := none },
              { asset := a.symbol
                order_size := s.orderSize
                side := s.side
                leverage := s.leverage
                margin_client := s.calculatedMargin }) := by
  unfold submitStart
  rw [h]

theorem submitStart_fields {s t : SessionState} {req : ValidateRequest}
    (h : submitStart s = some (t, req)) :
    t.assets = s.assets ∧ t.selectedAsset = s.selectedAsset
      ∧ t.validationResult = none := by
  cases hsel : s.selectedAsset with
  | none => rw [submitStart_of_none hsel] at h; cases h
  | some a =>
      rw [submitStart_of_some hsel] at h
      injection h with h1
      injection h1 with ht hreq
      subst ht
      exact ⟨rfl, hsel, rfl⟩

theorem submitResolve_selectedAsset (s : SessionState) (r : SubmitResult) :
    (submitResolve s r).selectedAsset = s.selectedAsset := by
  cases r <;> rfl

theorem submitResolve_assets (s : SessionState) (r : SubmitResult) :
    (submitResolve s r).assets = s.assets := by
  cases r <;> rfl

/-! ### The catalog-contract invariant over reachable states -/

/-- Every asset held by the session (in the catalog list or selected)
honours the catalog contract. -/
def Good (s : SessionState) : Prop :=
  (∀ a ∈ s.assets, goodAsset a) ∧ ∀ a, s.selectedAsset = some a → goodAsset a

theorem good_settle {s : SessionState} (h : Good s) : Good (settle s) := by
  constructor
  · rw [settle_assets]
    exact h.1
  · intro a ha
    rw [settle_selectedAsset] at ha
    exact h.2 a ha

theorem good_loadCatalog {s : SessionState} (h : Good s) (r : CatalogResult)
    (hgood : ∀ data, r = CatalogResult.success data →
      ∀ l, data.assets = some l → ∀ a ∈ l, goodAsset a) :
    Good (loadCatalog s r) := by
  cases r with
  | success data =>
      cases hassets : data.assets with
      | some l =>
          cases l with
          | nil =>
              rw [loadCatalog_success_empty s data hassets]
              exact ⟨h.1, h.2⟩
          | cons a rest =>
              rw [loadCatalog_success_cons s data a rest hassets]
              have hmem := hgood data rfl (a :: rest) hassets
              refine ⟨hmem, ?_⟩
              intro b hb
              have hab : a = b := by
                have hb2 : some a = some b := hb
                injection hb2
              subst hab
              exact hmem a (List.mem_cons_self a rest)
      | none =>
          rw [loadCatalog_success_missing s data hassets]
          exact ⟨h.1, h.2⟩
  | failure =>
      rw [loadCatalog_failure_eq]
      exact ⟨h.1, h.2⟩

theorem good_step {s t : SessionState} (h : Good s) (st : Step s t) : Good t := by
  cases st with
  | load r hgood => exact good_settle (good_loadCatalog h r hgood)
  | select a ha =>
      refine good_settle ⟨h.1, ?_⟩
      intro b hb
      have hab : a = b := by
        have hb2 : some a = some b := hb
        injection hb2
      subst hab
      exact h.1 a ha
  | setSide sd => exact good_settle ⟨h.1, h.2⟩
  | setSize x => exact good_settle ⟨h.1, h.2⟩
  | setLeverage l => exact good_settle ⟨h.1, h.2⟩
  | submitS u req hsub =>
      obtain ⟨hass, hsel, hvr⟩ := submitStart_fields hsub
      refine good_settle ⟨?_, ?_⟩
      · rw [hass]
        exact h.1
      · intro a ha
        rw [hsel] at ha
        exact h.2 a ha
  | submitR r =>
      refine good_settle ⟨?_, ?_⟩
      · rw [submitResolve_assets]
        exact h.1
      · intro a ha
        rw [submitResolve_selectedAsset] at ha
        exact h.2 a ha

theorem reachable_good {s : SessionState} (h : Reachable s) : Good s := by
  induction h with
  | init =>
      refine ⟨?_, ?_⟩
      · intro a ha
        cases ha
      · intro a ha
        cases ha
  | step _ st ih => exact good_step ih st

theorem settle_target_inv {x : SessionState} (hg : Good (settle x)) :
    ∀ a, (settle x).selectedAsset = some a →
      (settle x).leverage ∈ a.allowed_leverage := by
  intro a ha
  have hx : x.selectedAsset = some a := by
    rw [← settle_selectedAsset]
    exact ha
  exact settle_leverage_mem x a hx (hg.2 a ha)

theorem step_settle {s t : SessionState} (st : Step s t) : ∃ x, t = settle x := by
  cases st with
  | load r hgood => exact ⟨_, rfl⟩
  | select a ha => exact ⟨_, rfl⟩
  | setSide sd => exact ⟨_, rfl⟩
  | setSize x => exact ⟨_, rfl⟩
  | setLeverage l => exact ⟨_, rfl⟩
  | submitS u req hsub => exact ⟨_, rfl⟩
  | submitR r => exact ⟨_, rfl⟩

theorem step_leverage_inv {s t : SessionState} (h : Good s) (st : Step s t) :
    ∀ a, t.selectedAsset = some a → t.leverage ∈ a.allowed_leverage := by
  obtain ⟨x, rfl⟩ := step_settle st
  exact settle_target_inv (good_step h st)

theorem reachable_leverage_inv {s : SessionState} (h : Reachable s) :
    ∀ a, s.selectedAsset = some a → s.leverage ∈ a.allowed_leverage := by
  cases h with
  | init =>
      intro a ha
      simp [initialState] at ha
  | step hr st => exact step_leverage_inv (reachable_good hr) st

/-! ### Claim theorems -/

/-- C1: with an asset selected and positive leverage, the computed margin
equals `(mark_price * size * contract_value) / leverage` rounded to two
decimal places via `Math.round(x*100)/100`; in particular mark_price
50000, contract_value 0.001, size 10, leverage 20 give exactly 25, and
size 0 gives exactly 0. -/
theorem margin_estimate_formula :
    (∀ (s : SessionState) (a : Asset), s.selectedAsset = some a →
      0 < s.leverage →
      (computeMargin s).calculatedMargin
        = round2 (a.mark_price * s.orderSize * a.contract_value / s.leverage))
    ∧ (∀ (s : SessionState) (a : Asset), s.selectedAsset = some a →
        a.mark_price = 50000 → a.contract_value = 1 / 1000 →
        s.orderSize = 10 → s.leverage = 20 →
        (computeMargin s).calculatedMargin = 25)
    ∧ (∀ (s : SessionState) (a : Asset), s.selectedAsset = some a →
        s.orderSize = 0 → (computeMargin s).calculatedMargin = 0) := by
  have hmain : ∀ (s : SessionState) (a : Asset), s.selectedAsset = some a →
      0 < s.leverage →
      (computeMargin s).calculatedMargin
        = round2 (a.mark_price * s.orderSize * a.contract_value / s.leverage) := by
    intro s a hsel hl
    unfold computeMargin
    rw [hsel]
    simp [hl]
  refine ⟨hmain, ?_, ?_⟩
  · intro s a hsel hmp hcv hsz hl
    rw [hmain s a hsel (by rw [hl]; norm_num), hmp, hcv, hsz, hl]
    norm_num [round2, jsRound]
  · intro s a hsel hsz
    by_cases hl : 0 < s.leverage
    · rw [hmain s a hsel hl, hsz]
      norm_num [round2, jsRound]
    · unfold computeMargin
      rw [hsel]
      simp [hl]

theorem margin_estimate_formula_witness :
    (computeMargin readyState).calculatedMargin = 25 :=
  margin_estimate_formula.2.1 readyState assetBTC rfl rfl rfl rfl rfl

/-- C2: the leverage-correction effect keeps the current leverage when it
is an allowed multiple of the selected asset and otherwise falls back to
the first allowed multiple; it is applied through `settle` on every asset
selection (including the first), and with a non-empty allowed list its
result is always an allowed multiple (it never fails). -/
theorem leverage_resolution_policy :
    (∀ (s : SessionState) (a : Asset), s.selectedAsset = some a →
      s.leverage ∈ a.allowed_leverage → fixLeverage s = s)
    ∧ (∀ (s : SessionState) (a : Asset), s.selectedAsset = some a →
        s.leverage ∉ a.allowed_leverage → ∀ hne : a.allowed_leverage ≠ [],
        (fixLeverage s).leverage = a.allowed_leverage.head hne)
    ∧ (∀ (s : SessionState) (a : Asset),
        settle { s with selectedAsset := some a }
          = computeMargin (fixLeverage { s with selectedAsset := some a }))
    ∧ (∀ (s : SessionState) (a : Asset), s.selectedAsset = some a →
        a.allowed_leverage ≠ [] →
        (fixLeverage s).leverage ∈ a.allowed_leverage) := by
  refine ⟨?_, ?_, ?_, ?_⟩
  · intro s a hsel hmem
    unfold fixLeverage
    rw [hsel]
    simp [hmem]
  · intro s a hsel hnm hne
    unfold fixLeverage
    rw [hsel]
    simp only [hnm, if_false]
    rw [List.headD_eq_head?, List.head?_eq_head hne]
    rfl
  · intro s a
    rfl
  · intro s a hsel hne
    exact fixLeverage_leverage_mem s a hsel hne

theorem leverage_resolution_policy_witness :
    fixLeverage readyState = readyState :=
  leverage_resolution_policy.1 readyState assetBTC rfl (by decide)

/-- C3: in every reachable settled state with an asset selected, the
current leverage is a member of that asset's allowed_leverage; the
invariant is seeded at load time (first asset selected, leverage set to
its first allowed multiple) and preserved by every subsequent step. -/
theorem leverage_member_invariant :
    (∀ s : SessionState, Reachable s → ∀ a, s.selectedAsset = some a →
      s.leverage ∈ a.allowed_leverage)
    ∧ (∀ (s : SessionState) (data : CatalogResponse) (a : Asset)
        (rest : List Asset), data.assets = some (a :: rest) →
        (loadCatalog s (CatalogResult.success data)).selectedAsset = some a
        ∧ (loadCatalog s (CatalogResult.success data)).leverage
            = a.allowed_leverage.headD 0) := by
  constructor
  · intro s h
    exact reachable_leverage_inv h
  · intro s data a rest h
    rw [loadCatalog_success_cons s data a rest h]
    exact ⟨rfl, rfl⟩

theorem leverage_member_invariant_witness :
    loadedState.leverage ∈ assetBTC.allowed_leverage :=
  leverage_member_invariant.1 loadedState
    (Reachable.step Reachable.init
      (Step.load initialState
        (CatalogResult.success { assets := some [assetBTC] })
        (by
          intro data hdata l hl b hb
          cases hdata
          injection hl with hl2
          subst hl2
          simp only [List.mem_singleton] at hb
          subst hb
          show assetBTC.allowed_leverage ≠ []
          decide)))
    assetBTC rfl

/-- C4: invoking submit with an asset selected clears the prior outcome in
the synchronous phase, before any response is observed: the in-flight
state always carries no ValidationOutcome. -/
theorem submit_clears_prior_outcome (s : SessionState) (a : Asset)
    (hsel : s.selectedAsset = some a) :
    submitStart s
      = some ({ s with validationResult := none },
              { asset := a.symbol
                order_size := s.orderSize
                side := s.side
                leverage := s.leverage
                margin_client := s.calculatedMargin })
    ∧ ∀ t req, submitStart s = some (t, req) → t.validationResult = none := by
  constructor
  · exact submitStart_of_some hsel
  · intro t req h
    exact (submitStart_fields h).2.2

theorem submit_clears_prior_outcome_witness :
    submitStart resolvedState
      = some ({ resolvedState with validationResult := none },
              { asset := assetBTC.symbol
                order_size := resolvedState.orderSize
                side := resolvedState.side
                leverage := resolvedState.leverage
                margin_client := resolvedState.calculatedMargin }) :=
  (submit_clears_prior_outcome resolvedState assetBTC rfl).1

/-- C9: with no asset selected or a non-positive leverage the margin effect
stores exactly 0: the guarded branch is taken and the division is never
performed with a non-positive divisor. -/
theorem degenerate_margin_zero (s : SessionState)
    (h : s.selectedAsset = none ∨ s.leverage ≤ 0) :
    (computeMargin s).calculatedMargin = 0 := by
  rcases h with h | h
  · unfold computeMargin
    rw [h]
  · cases hsel : s.selectedAsset with
    | none =>
        unfold computeMargin
        rw [hsel]
    | some a =>
        unfold computeMargin
        rw [hsel]
        simp [not_lt.mpr h]

theorem degenerate_margin_zero_witness :
    (computeMargin initialState).calculatedMargin = 0 :=
  degenerate_margin_zero initialState (Or.inl rfl)

/-- C5 counterexample: at a concrete failing submission, the stored message
is "Network error connecting to backend" (capital N, line 101), not the
lower-case "network error connecting to backend" the claim states. -/
theorem network_error_message_mismatch :
    (submitResolve readyState SubmitResult.failure).validationResult
      = some networkErrorOutcome
    ∧ networkErrorOutcome.message = some "Network error connecting to backend"
    ∧ ¬ networkErrorOutcome.message = some "network error connecting to backend" := by
  refine ⟨rfl, rfl, ?_⟩
  decide

/-- C5 amended: a submission whose transport fails or whose body fails to
parse as JSON stores exactly the locally synthesized outcome with status
"error", message "Network error connecting to backend" and
margin_required 0; the embedding is total, modelling the absence of a
crash path. -/
theorem transport_failure_synthesized (s : SessionState) :
    (submitResolve s SubmitResult.failure).validationResult
      = some { status := some "error"
               message := some "Network error connecting to backend"
               margin_required := some 0
               extra := [] } := rfl

/-- C6 counterexample: a parsed catalog response whose asset list is
present but empty does not put the session into the load-error state: the
error cell stays unset (the load-error screen is not shown) while loading
ends; no asset is ever selected. -/
theorem empty_catalog_not_load_error :
    showsLoadError (loadCatalog initialState
        (CatalogResult.success { assets := some [] })) = false
    ∧ (loadCatalog initialState
        (CatalogResult.success { assets := some [] })).loading = false
    ∧ (loadCatalog initialState
        (CatalogResult.success { assets := some [] })).selectedAsset = none :=
  ⟨rfl, rfl, rfl⟩

/-- C6 amended: a parsed response with an empty or missing asset list only
ends the loading state, leaving the error cell unset and selecting no
asset (so no order draft is ever constructed); the load-error state is
entered exactly on transport failure, a non-2xx status or an unparseable
body. -/
theorem catalog_empty_paths :
    (∀ s : SessionState,
      loadCatalog s (CatalogResult.success { assets := some [] })
        = { s with loading := false })
    ∧ (∀ (s : SessionState) (data : CatalogResponse), data.assets = none →
        loadCatalog s (CatalogResult.success data)
          = { s with loading := false })
    ∧ (∀ s : SessionState, loadCatalog s CatalogResult.failure
        = { s with error := some catalogErrorMessage, loading := false })
    ∧ (∀ s : SessionState,
        showsLoadError (loadCatalog s CatalogResult.failure) = true) := by
  refine ⟨?_, ?_, ?_, ?_⟩
  · intro s
    exact loadCatalog_success_empty s _ rfl
  · intro s data h
    exact loadCatalog_success_missing s data h
  · intro s
    rfl
  · intro s
    rfl

theorem catalog_empty_paths_witness :
    loadCatalog initialState (CatalogResult.success { assets := none })
      = { initialState with loading := false } :=
  catalog_empty_paths.2.1 initialState { assets := none } rfl

/-- C7 counterexample: with an asset selected and order size 0, the submit
handler still issues a request (its payload carries order_size 0); only
the disabled submit button suppresses submission at non-positive sizes. -/
theorem submit_issues_request_at_size_zero :
    sizeZeroState.orderSize = 0
    ∧ submitStart sizeZeroState
        = some ({ sizeZeroState with validationResult := none },
                { asset := "BTC"
                  order_size := 0
                  side := Side.long
                  leverage := 5
                  margin_client := 0 })
    ∧ submitDisabled sizeZeroState = true := by
  refine ⟨rfl, rfl, ?_⟩
  decide

/-- C7 amended: the submit handler itself rejects only the absence of a
selected asset; with an asset selected it issues a request whatever the
size, and non-positive sizes are suppressed only by the disabled submit
affordance (disabled exactly when orderSize ≤ 0). -/
theorem submit_guard_is_asset_only :
    (∀ s : SessionState, s.selectedAsset = none → submitStart s = none)
    ∧ (∀ (s : SessionState) (a : Asset), s.selectedAsset = some a →
        (submitStart s).isSome = true)
    ∧ (∀ s : SessionState, submitDisabled s = true ↔ s.orderSize ≤ 0) := by
  refine ⟨?_, ?_, ?_⟩
  · intro s h
    exact submitStart_of_none h
  · intro s a h
    rw [submitStart_of_some h]
    rfl
  · intro s
    simp [submitDisabled]

theorem submit_guard_is_asset_only_witness :
    submitStart initialState = none :=
  submit_guard_is_asset_only.1 initialState rfl

/-- A parsed validate response that lacks both required fields but carries
an unknown extra field. -/
def wireMissingFields : WireResponse :=
  { status := none
    message := none
    margin_required := none
    extra := [("detail", "upstream timeout")] }

/-- C8 counterexample: a parsed response lacking both required fields is
stored verbatim as the outcome; it is not replaced by the synthesized
transport-failure outcome. -/
theorem missing_fields_not_failure_path :
    (submitResolve readyState
        (SubmitResult.success wireMissingFields)).validationResult
      = some wireMissingFields
    ∧ wireMissingFields.status = none
    ∧ wireMissingFields.margin_required = none
    ∧ ¬ (submitResolve readyState
          (SubmitResult.success wireMissingFields)).validationResult
        = some networkErrorOutcome := by
  refine ⟨rfl, rfl, rfl, ?_⟩
  decide

/-- C8 amended: the client performs no runtime validation of a parsed
validate response: any parsed body, one missing status or margin_required
included, is stored verbatim with its unknown extra fields; only
transport and parse failures take the synthesized-outcome path. -/
theorem parsed_response_stored_verbatim :
    (∀ (s : SessionState) (w : WireResponse),
      (submitResolve s (SubmitResult.success w)).validationResult = some w)
    ∧ (∀ s : SessionState,
        (submitResolve s SubmitResult.failure).validationResult
          = some networkErrorOutcome) :=
  ⟨fun _ _ => rfl, fun _ => rfl⟩

/-! ### Equivalence of the two front-end source files -/

/-- One externally triggered input to the session: a catalog result, a
user edit, a submit click, or the resolution of the in-flight request. -/
inductive Input where
  | load : CatalogResult → Input
  | select : Asset → Input
  | chooseSide : Side → Input
  | chooseSize : ℚ → Input
  | chooseLeverage : ℚ → Input
  | submitClick : Input
  | submitDone : SubmitResult → Input
deriving DecidableEq, Repr

/-- Observable behaviour of the component: the state it renders from and
every request body it has issued, in order. -/
structure Obs where
  state : SessionState
  requests : List ValidateRequest
deriving DecidableEq, Repr

/-- Apply one input to the `src/app/page.tsx` component and settle the
effects; a submit click with no asset selected issues no request. -/
def applyInput (o : Obs) : Input → Obs
  | Input.load r => { o with state := settle (loadCatalog o.state r) }
  | Input.select a =>
      { o with state := settle { o.state with selectedAsset := some a } }
  | Input.chooseSide sd => { o with state := settle { o.state with side := sd } }
  | Input.chooseSize x => { o with state := settle { o.state with orderSize := x } }
  | Input.chooseLeverage l =>
      { o with state := settle { o.state with leverage := l } }
  | Input.submitClick =>
      match submitStart o.state with
      | none => o
      | some (t, req) => { state := settle t, requests := o.requests ++ [req] }
  | Input.submitDone r => { o with state := settle (submitResolve o.state r) }

/-- Run a whole input sequence from the initial render of
`src/app/page.tsx`. -/
def run (l : List Input) : Obs :=
  l.foldl applyInput { state := initialState, requests := [] }

namespace Part000

/-!
The same component transcribed a second time, from
`src/unnamed/part_000` (its `Home`, lines 18-105), so that the two source
files can be compared definition by definition.  Line references below
are into `src/unnamed/part_000`.
-/

/-- The initial `useState` values of `src/unnamed/part_000` (lines 19-27). -/
def initialState : SessionState :=
  { assets := []
    selectedAsset := none
    orderSize := 0
    side := Side.long
    leverage := 0
    calculatedMargin := 0
    validationResult := none
    error := none
    loading := true }

/-- The leverage-correction effect of `src/unnamed/part_000` (lines 57-61). -/
def fixLeverage (s : SessionState) : SessionState :=
  match s.selectedAsset with
  | some a =>
      if s.leverage ∈ a.allowed_leverage then s
      else { s with leverage := a.allowed_leverage.headD 0 }
  | none => s

/-- The margin-calculation effect of `src/unnamed/part_000` (lines 64-73). -/
def computeMargin (s : SessionState) : SessionState :=
  match s.selectedAsset with
  | some a =>
      if 0 < s.leverage then
        { s with calculatedMargin :=
            round2 (a.mark_price * s.orderSize * a.contract_value / s.leverage) }
      else { s with calculatedMargin := 0 }
  | none => { s with calculatedMargin := 0 }

/-- One settled render of `src/unnamed/part_000`. -/
def settle (s : SessionState) : SessionState := computeMargin (fixLeverage s)

/-- The catalog `.catch` message of `src/unnamed/part_000` (line 51). -/
def catalogErrorMessage : String :=
  "Could not load asset configuration. Is the backend running?"

/-- The catalog-load effect of `src/unnamed/part_000` (lines 33-54). -/
def loadCatalog (s : SessionState) : CatalogResult → SessionState
  | CatalogResult.success data =>
      match data.assets with
      | some (a :: rest) =>
          { s with assets := a :: rest
                   selectedAsset := some a
                   leverage := a.allowed_leverage.headD 0
                   loading := false }
      | some [] => { s with loading := false }
      | none => { s with loading := false }
  | CatalogResult.failure =>
      { s with error := some catalogErrorMessage, loading := false }

/-- The synchronous phase of `handleSubmit` in `src/unnamed/part_000`
(lines 75-93). -/
def submitStart (s : SessionState) : Option (SessionState × ValidateRequest) :=
  match s.selectedAsset with
  | none => none
  | some a =>
      some ({ s with validationResult := none },
            { asset := a.symbol
              order_size := s.orderSize
              side := s.side
              leverage := s.leverage
              margin_client := s.calculatedMargin })

/-- The `catch`-branch outcome of `src/unnamed/part_000` (lines 99-103). -/
def networkErrorOutcome : WireResponse :=
  { status := some "error"
    message := some "Network error connecting to backend"
    margin_required := some 0
    extra := [] }

/-- The asynchronous tail of `handleSubmit` in `src/unnamed/part_000`
(lines 95-104). -/
def submitResolve (s : SessionState) : SubmitResult → SessionState
  | SubmitResult.success data => { s with validationResult := some data }
  | SubmitResult.failure => { s with validationResult := some networkErrorOutcome }

/-- The `disabled` attribute of the submit button of
`src/unnamed/part_000` (line 254). -/
def submitDisabled (s : SessionState) : Bool := s.orderSize ≤ 0

/-- Apply one input to the `src/unnamed/part_000` component. -/
def applyInput (o : Obs) : Input → Obs
  | Input.load r => { o with state := settle (loadCatalog o.state r) }
  | Input.select a =>
      { o with state := settle { o.state with selectedAsset := some a } }
  | Input.chooseSide sd => { o with state := settle { o.state with side := sd } }
  | Input.chooseSize x => { o with state := settle { o.state with orderSize := x } }
  | Input.chooseLeverage l =>
      { o with state := settle { o.state with leverage := l } }
  | Input.submitClick =>
      match submitStart o.state with
      | none => o
      | some (t, req) => { state := settle t, requests := o.requests ++ [req] }
  | Input.submitDone r => { o with state := settle (submitResolve o.state r) }

/-- Run a whole input sequence from the initial render of
`src/unnamed/part_000`. -/
def run (l : List Input) : Obs :=
  l.foldl applyInput { state := initialState, requests := [] }

end Part000

/-- C10: the two front-end source files implement the same core logic:
their initial state, catalog-load behaviour, leverage correction, margin
computation, submit phases, stored outcomes, and whole input-sequence
behaviour (request payloads included) coincide. -/
theorem part000_matches_page :
    Part000.initialState = initialState
    ∧ (∀ (s : SessionState) (r : CatalogResult),
        Part000.loadCatalog s r = loadCatalog s r)
    ∧ (∀ s : SessionState, Part000.fixLeverage s = fixLeverage s)
    ∧ (∀ s : SessionState, Part000.computeMargin s = computeMargin s)
    ∧ (∀ s : SessionState, Part000.submitStart s = submitStart s)
    ∧ (∀ (s : SessionState) (r : SubmitResult),
        Part000.submitResolve s r = submitResolve s r)
    ∧ (∀ s : SessionState, Part000.submitDisabled s = submitDisabled s)
    ∧ (∀ l : List Input, Part000.run l = run l) :=
  ⟨rfl, fun _ _ => rfl, fun _ => rfl, fun _ => rfl, fun _ => rfl,
   fun _ _ => rfl, fun _ => rfl, fun _ => rfl⟩

end FrontendMargin
